import Mathlib

/-!
Verification of the example notebook
`examples/04-Roof-Classification-Model.ipynb` from the
turkana-camp-roof-mapping repository.

The notebook is glue code: it loads a pickled metrics dictionary, plots
loss curves, selects building annotations lacking roof-material labels,
filters them to a raster extent, writes them to a temporary file, and
calls an external inference function inside a try/finally block.  Each
cell is embedded below as an executable Lean definition; the theorems
establish the properties of that glue logic.
-/

namespace RoofMapping

/-! ## Geometric data model

A geographic point and a raster extent (bounding box), with coordinates
as rationals.  Annotation rows carry a geometry together with the two
attribute columns the notebook reads: `building` and `roof:material`
(spelled `roofMaterial` here), each nullable. -/

structure Pt where
  x : ℚ
  y : ℚ
deriving DecidableEq, Repr

structure RasterExtent where
  left : ℚ
  bottom : ℚ
  right : ℚ
  top : ℚ
deriving DecidableEq, Repr

/-- A point falls within a raster's rectangular spatial extent. -/
def withinExtent (p : Pt) (e : RasterExtent) : Bool :=
  decide (e.left ≤ p.x) && decide (p.x ≤ e.right) &&
    decide (e.bottom ≤ p.y) && decide (p.y ≤ e.top)

/-- One row of the annotations GeoDataFrame: a geometry plus the
`building` and `roof:material` columns (both nullable strings). -/
structure AnnRow where
  geometry : Pt
  building : Option String
  roofMaterial : Option String
deriving DecidableEq, Repr

/-- Modelled from the spec: the helper `filter_points_to_raster` lives in
`src.geo_utils`, which is not among the provided sources; only its import
and call sites appear in the notebook.  Per the spec it "restricts a set
of geographic point/polygon annotations to those falling within a
raster's spatial extent".  It is therefore a filter of the input rows by
the extent predicate. -/
def filter_points_to_raster (ann : List AnnRow) (src : RasterExtent) : List AnnRow :=
  ann.filter (fun r => withinExtent r.geometry src)

/-- Cell 7 of the notebook selects rows where `building` is not null and
`roof:material` is null:
`annotations[~annotations["building"].isna() & annotations["roof:material"].isna()].copy()`. -/
def selectUnlabeledBuildings (ann : List AnnRow) : List AnnRow :=
  ann.filter (fun r => r.building.isSome && r.roofMaterial.isNone)

end RoofMapping

namespace RoofMapping

/-- C2: `filter_points_to_raster` returns exactly the rows of the input
whose geometry falls within the raster's extent — every returned row's
geometry lies within the extent, every input row whose geometry lies
within the extent is returned, and the result is an unmodified
subsequence of the input (no rows added or modified). -/
theorem filter_points_to_raster_exact (ann : List AnnRow) (ext : RasterExtent) :
    (∀ r ∈ filter_points_to_raster ann ext, withinExtent r.geometry ext = true) ∧
    (∀ r ∈ ann, withinExtent r.geometry ext = true →
      r ∈ filter_points_to_raster ann ext) ∧
    (filter_points_to_raster ann ext).Sublist ann := by
  refine ⟨?_, ?_, ?_⟩
  · intro r hr
    unfold filter_points_to_raster at hr
    exact (List.mem_filter.mp hr).2
  · intro r hr hw
    unfold filter_points_to_raster
    exact List.mem_filter.mpr ⟨hr, hw⟩
  · exact List.filter_sublist ann

/-- Witness for C2: a concrete row inside a concrete extent is kept by
`filter_points_to_raster`, and the output is a sublist of the input. -/
theorem filter_points_to_raster_exact_witness :
    (⟨⟨1, 2⟩, some "yes", none⟩ : AnnRow) ∈
      filter_points_to_raster [⟨⟨1, 2⟩, some "yes", none⟩] ⟨0, 0, 10, 10⟩ ∧
    (filter_points_to_raster [⟨⟨1, 2⟩, some "yes", none⟩] ⟨0, 0, 10, 10⟩).Sublist
      [⟨⟨1, 2⟩, some "yes", none⟩] := by
  constructor
  · exact (filter_points_to_raster_exact [⟨⟨1, 2⟩, some "yes", none⟩]
      ⟨0, 0, 10, 10⟩).2.1 ⟨⟨1, 2⟩, some "yes", none⟩ (by simp) (by decide)
  · exact (filter_points_to_raster_exact [⟨⟨1, 2⟩, some "yes", none⟩]
      ⟨0, 0, 10, 10⟩).2.2

/-- C6: after the annotation-selection step, every row of the result has
a non-null `building` value and a null `roof:material` value and comes
from the input, and the result is an unmodified subsequence of the rows
read from the annotations file. -/
theorem annotation_selection_invariant (ann : List AnnRow) :
    (∀ r ∈ selectUnlabeledBuildings ann,
      r.building.isSome = true ∧ r.roofMaterial = none ∧ r ∈ ann) ∧
    (selectUnlabeledBuildings ann).Sublist ann := by
  constructor
  · intro r hr
    unfold selectUnlabeledBuildings at hr
    have hmem : r ∈ ann := (List.mem_filter.mp hr).1
    have hp : (r.building.isSome && r.roofMaterial.isNone) = true :=
      (List.mem_filter.mp hr).2
    simp only [Bool.and_eq_true] at hp
    refine ⟨hp.1, ?_, hmem⟩
    cases h : r.roofMaterial with
    | none => rfl
    | some v => rw [h] at hp; simp [Option.isNone] at hp
  · exact List.filter_sublist ann

/-- Witness for C6: evaluating the selection on a concrete two-row frame
keeps the unlabeled-building row with its fields intact. -/
theorem annotation_selection_invariant_witness :
    ((⟨⟨3, 4⟩, some "hut", none⟩ : AnnRow).building.isSome = true ∧
      (⟨⟨3, 4⟩, some "hut", none⟩ : AnnRow).roofMaterial = none ∧
      (⟨⟨3, 4⟩, some "hut", none⟩ : AnnRow) ∈
        [⟨⟨3, 4⟩, some "hut", none⟩, ⟨⟨5, 6⟩, none, some "thatch"⟩]) ∧
    (selectUnlabeledBuildings
        [⟨⟨3, 4⟩, some "hut", none⟩, ⟨⟨5, 6⟩, none, some "thatch"⟩]).Sublist
      [⟨⟨3, 4⟩, some "hut", none⟩, ⟨⟨5, 6⟩, none, some "thatch"⟩] := by
  constructor
  · exact (annotation_selection_invariant
        [⟨⟨3, 4⟩, some "hut", none⟩, ⟨⟨5, 6⟩, none, some "thatch"⟩]).1
      ⟨⟨3, 4⟩, some "hut", none⟩ (by decide)
  · exact (annotation_selection_invariant
        [⟨⟨3, 4⟩, some "hut", none⟩, ⟨⟨5, 6⟩, none, some "thatch"⟩]).2

end RoofMapping

namespace RoofMapping

/-! ## The inference cell: temporary file, try/finally, inference call

Cell 7 creates `tempfile.NamedTemporaryFile(suffix='.gpkg', delete=False)`,
then inside `try` saves the annotations GeoDataFrame to `temp.name`,
creates the output directory and runs `roof_material_inference`; the
`finally` block unlinks `temp.name`.  The file system is modelled as the
list of existing file names; either the save or the inference call may
raise. -/

/-- Paths fixed in the notebook's inference cell. -/
def checkpoint_f : String :=
  "../outputs/roof_material_classification/example-2024-01-19-01-44-00/checkpoints/epoch=4_val_loss=0.2140.ckpt"

def imagery_f : String := "../data/interim/example_mosaic_cogs/kakuma_15.tif"

def out_f : String :=
  "../outputs/roof_material_classification/example-2024-01-19-01-44-00/inference/epoch=4_val_loss=0.2140/kakuma_15-annotations-predictions.gpkg"

/-- Create a file: after this the name is present (idempotent, as both
`NamedTemporaryFile` creation and `to_file` leave the file existing). -/
def createFile (name : String) (fs : List String) : List String :=
  if name ∈ fs then fs else name :: fs

/-- `Path(name).unlink()`: the file no longer exists afterwards. -/
def removeFile (name : String) (fs : List String) : List String :=
  fs.filter (fun f => f != name)

/-- The inference cell's file-system effect.  `saveRaises` models
`annotations.to_file` raising, `inferRaises` models
`roof_material_inference` raising; the returned `Except` is the cell's
outcome after the `finally` block has run. -/
def runInferenceCell (fs : List String) (tempName : String)
    (saveRaises inferRaises : Bool) : List String × Except String Unit :=
  let fs1 := createFile tempName fs
  let tryResult : List String × Except String Unit :=
    if saveRaises then
      (fs1, .error "to_file")
    else
      let fs2 := createFile tempName fs1
      if inferRaises then
        (fs2, .error "inference")
      else
        (createFile out_f fs2, .ok ())
  (removeFile tempName tryResult.1, tryResult.2)

/-- The data-flow trace of the annotation cell (cell 7) up to and
including the inference call: what is written to the temporary file,
the count that is printed, and the building-polygon data and output
path handed to `roof_material_inference`. -/
structure AnnotationCellTrace where
  saved_temp_data : List AnnRow
  printed_count : ℕ
  inference_building_input : List AnnRow
  inference_output_path : String
deriving DecidableEq, Repr

/-- Cell 7 as a data-flow function: select annotations with a building
label but no roof material, filter them to the raster extent for the
printed count, save `annotations` (the unfiltered selection) to the
temporary file, and pass that file to `roof_material_inference` along
with `out_f`. -/
def runAnnotationCell (rawAnnotations : List AnnRow) (ext : RasterExtent) :
    AnnotationCellTrace :=
  let annotations := selectUnlabeledBuildings rawAnnotations
  let filtered_annotations := filter_points_to_raster annotations ext
  { saved_temp_data := annotations
    printed_count := filtered_annotations.length
    inference_building_input := annotations
    inference_output_path := out_f }

end RoofMapping

namespace RoofMapping

/-- C3: whatever the initial file system and whether the save of the
GeoDataFrame or the call to `roof_material_inference` succeeds or
raises, after the finally-equivalent cleanup block the temporary file
named by `temp.name` no longer exists. -/
theorem inference_cell_unlinks_temp (fs : List String) (tempName : String)
    (saveRaises inferRaises : Bool) :
    tempName ∉ (runInferenceCell fs tempName saveRaises inferRaises).1 := by
  intro hmem
  unfold runInferenceCell at hmem
  have h : tempName ∈ (removeFile tempName
      (if saveRaises then
        (createFile tempName fs, Except.error "to_file")
      else
        if inferRaises then
          (createFile tempName (createFile tempName fs), Except.error "inference")
        else
          (createFile out_f (createFile tempName (createFile tempName fs)),
            Except.ok ())).1) := by
    simpa using hmem
  unfold removeFile at h
  have h2 := (List.mem_filter.mp h).2
  simp at h2

/-- C7: the file handed to `roof_material_inference` holds the full
null-roof-material annotations GeoDataFrame: the data written to the
temporary file equals `annotations` (the unfiltered selection), the
inference call reads exactly that data and writes to `out_f`, and the
result of `filter_points_to_raster` influences only the printed count —
the saved data, inference input and output path are the same for any
two raster extents. -/
theorem inference_input_is_unfiltered (raw : List AnnRow) (ext : RasterExtent) :
    (runAnnotationCell raw ext).saved_temp_data = selectUnlabeledBuildings raw ∧
    (runAnnotationCell raw ext).inference_building_input =
      (runAnnotationCell raw ext).saved_temp_data ∧
    (runAnnotationCell raw ext).inference_output_path = out_f ∧
    (runAnnotationCell raw ext).printed_count =
      (filter_points_to_raster (selectUnlabeledBuildings raw) ext).length ∧
    ∀ ext2 : RasterExtent,
      (runAnnotationCell raw ext2).saved_temp_data =
          (runAnnotationCell raw ext).saved_temp_data ∧
        (runAnnotationCell raw ext2).inference_building_input =
          (runAnnotationCell raw ext).inference_building_input ∧
        (runAnnotationCell raw ext2).inference_output_path =
          (runAnnotationCell raw ext).inference_output_path :=
  ⟨rfl, rfl, rfl, rfl, fun _ => ⟨rfl, rfl, rfl⟩⟩

end RoofMapping

namespace RoofMapping

/-! ## Example command lines (markdown cells 3 and 6)

The notebook documents two shell invocations.  They are embedded
verbatim; flag presence is substring containment, computed over the
character lists. -/

/-- The training command block shown in the notebook. -/
def trainCommand : String :=
  "cd scripts/roof_material_classification\npython train.py --exp-version example --data-dir ../../data/processed/example_chipped_datasets/roof_material_classification/ --tile-split-file ../../config/examples/data_preprocessing/tiled_dataset_splits/tiled_dataset_splits_1.yml --output-dir ../../outputs/"

/-- The inference command shown in the notebook (shell-escaped `=` kept). -/
def inferenceCommand : String :=
  "python inference.py --checkpoint-path ../../outputs/roof_material_classification/example-2024-01-19-01-44-00/checkpoints/epoch\\=4_val_loss\\=0.2140.ckpt --image-dir ../../data/interim/example_mosaic_cogs/ --building-detections-dir ../../outputs/semantic_segmentation/example-2024-01-19-01-06-30/inference/"

/-- `p` begins the list `l`. -/
def charsLead (p l : List Char) : Bool :=
  match p, l with
  | [], _ => true
  | _ :: _, [] => false
  | c :: cs, d :: ds => c == d && charsLead cs ds

/-- `p` occurs contiguously somewhere in `l`. -/
def occursIn (p : List Char) : List Char → Bool
  | [] => charsLead p []
  | d :: ds => charsLead p (d :: ds) || occursIn p ds

/-- The string `flag` occurs as a substring of the command `cmd`. -/
def strContains (cmd flag : String) : Bool :=
  occursIn flag.data cmd.data

end RoofMapping

namespace RoofMapping

set_option maxRecDepth 40000 in
/-- C5: the train.py example command contains `--exp-version`,
`--data-dir`, `--tile-split-file` and `--output-dir`, and the
inference.py example command contains `--checkpoint-path`,
`--image-dir` and `--building-detections-dir`. -/
theorem example_commands_contain_documented_flags :
    strContains trainCommand "--exp-version" = true ∧
    strContains trainCommand "--data-dir" = true ∧
    strContains trainCommand "--tile-split-file" = true ∧
    strContains trainCommand "--output-dir" = true ∧
    strContains inferenceCommand "--checkpoint-path" = true ∧
    strContains inferenceCommand "--image-dir" = true ∧
    strContains inferenceCommand "--building-detections-dir" = true := by
  refine ⟨?_, ?_, ?_, ?_, ?_, ?_, ?_⟩ <;> decide

end RoofMapping

namespace RoofMapping

/-! ## The inference call (cell 7)

`args = SimpleNamespace(batch_size=64, num_workers=12, device=torch.device("cuda:0"))`
`roof_material_inference(checkpoint_f, imagery_f, temp.name, out_f, args)`

The call passes five positional arguments; the last bundles batch size,
worker count and device. -/

/-- The `SimpleNamespace` handed to the inference function. -/
structure InferenceArgsNS where
  batch_size : ℕ
  num_workers : ℕ
  device : String
deriving DecidableEq, Repr

/-- The full argument record of the `roof_material_inference` call. -/
structure InferenceCall where
  checkpoint_path : String
  image_path : String
  building_detections_path : String
  output_path : String
  args : InferenceArgsNS
deriving DecidableEq, Repr

/-- The concrete call made in cell 7 (`tempName` is the runtime name of
the temporary file). -/
def notebookInferenceCall (tempName : String) : InferenceCall :=
  { checkpoint_path := checkpoint_f
    image_path := imagery_f
    building_detections_path := tempName
    output_path := out_f
    args := { batch_size := 64, num_workers := 12, device := "cuda:0" } }

/-- The kinds of parameter the inference call can carry. -/
inductive InferenceParam where
  | checkpointPath
  | imageDir
  | buildingDetectionsDir
  | outputPath
  | batchSize
  | numWorkers
  | device
deriving DecidableEq, Repr, Fintype

/-- The parameters actually passed by the notebook's call, in order:
`checkpoint_f`, `imagery_f`, `temp.name`, `out_f`, then the three fields
of `args`. -/
def notebookCallParams : List InferenceParam :=
  [.checkpointPath, .imageDir, .buildingDetectionsDir, .outputPath,
    .batchSize, .numWorkers, .device]

/-- The parameter list as the spec words it: "checkpoint path, image
directory, building-detection directory, batch size, worker count,
device". -/
def specListedInferenceParams : List InferenceParam :=
  [.checkpointPath, .imageDir, .buildingDetectionsDir,
    .batchSize, .numWorkers, .device]

end RoofMapping

namespace RoofMapping

/-- C1 counterexample: the notebook's call does NOT consist of exactly
the parameters the spec lists — it additionally passes an output path
(`out_f`, the fourth positional argument), which is absent from the
spec's list. -/
theorem inference_call_params_cex :
    InferenceParam.outputPath ∈ notebookCallParams ∧
    InferenceParam.outputPath ∉ specListedInferenceParams := by
  decide

/-- C1 amended: the notebook calls the external inference function with
the parameters the spec lists (checkpoint path, image directory,
building-detection directory, batch size, worker count, device) plus
one more, an output path. -/
theorem inference_call_params_amended :
    ∀ p : InferenceParam,
      p ∈ notebookCallParams ↔
        (p ∈ specListedInferenceParams ∨ p = InferenceParam.outputPath) := by
  decide

end RoofMapping

namespace RoofMapping

/-! ## The metrics cell (cell 4)

`best_epoch = metrics['val_losses'].index(min(metrics['val_losses']))`.
Python's `min` over a non-empty list folds the binary minimum over the
elements; `list.index(x)` returns the first position holding `x`.
Losses are modelled as rationals. -/

/-- Python `min(l)`: `none` on the empty list (where `min` raises),
otherwise the fold of the binary minimum. -/
def pyMin : List ℚ → Option ℚ
  | [] => none
  | x :: xs => some (xs.foldl min x)

/-- Python `l.index(x)`: position of the first occurrence of `x`. -/
def pyIndex (x : ℚ) : List ℚ → ℕ
  | [] => 0
  | y :: ys => if y = x then 0 else pyIndex x ys + 1

/-- `best_epoch` as computed in cell 4. -/
def best_epoch (val_losses : List ℚ) : ℕ :=
  match pyMin val_losses with
  | some m => pyIndex m val_losses
  | none => 0

theorem foldl_min_mem (xs : List ℚ) : ∀ x : ℚ, xs.foldl min x ∈ x :: xs := by
  induction xs with
  | nil => intro x; simp
  | cons y ys ih =>
    intro x
    simp only [List.foldl_cons]
    rcases List.mem_cons.mp (ih (min x y)) with h1 | h1
    · rcases min_choice x y with hc | hc
      · rw [h1, hc]; exact List.mem_cons_self _ _
      · rw [h1, hc]; exact List.mem_cons_of_mem _ (List.mem_cons_self _ _)
    · exact List.mem_cons_of_mem _ (List.mem_cons_of_mem _ h1)

theorem foldl_min_le (xs : List ℚ) : ∀ x : ℚ, ∀ y ∈ x :: xs, xs.foldl min x ≤ y := by
  induction xs with
  | nil =>
    intro x y hy
    rw [List.mem_singleton] at hy
    simp [hy]
  | cons z zs ih =>
    intro x y hy
    simp only [List.foldl_cons]
    rcases List.mem_cons.mp hy with h1 | h1
    · calc zs.foldl min (min x z) ≤ min x z :=
            ih (min x z) (min x z) (List.mem_cons_self _ _)
        _ ≤ x := min_le_left _ _
        _ = y := h1.symm
    · rcases List.mem_cons.mp h1 with h2 | h2
      · calc zs.foldl min (min x z) ≤ min x z :=
              ih (min x z) (min x z) (List.mem_cons_self _ _)
          _ ≤ z := min_le_right _ _
          _ = y := h2.symm
      · exact ih (min x z) y (List.mem_cons_of_mem _ h2)

theorem pyIndex_get? (x : ℚ) (l : List ℚ) (h : x ∈ l) :
    l.get? (pyIndex x l) = some x := by
  induction l with
  | nil => simp at h
  | cons y ys ih =>
    by_cases hy : y = x
    · simp [pyIndex, hy]
    · have hx : x ∈ ys := by
        rcases List.mem_cons.mp h with h1 | h1
        · exact absurd h1.symm hy
        · exact h1
      simp only [pyIndex, if_neg hy, List.get?_cons_succ]
      exact ih hx

theorem pyIndex_le (x : ℚ) (l : List ℚ) :
    ∀ i : ℕ, l.get? i = some x → pyIndex x l ≤ i := by
  induction l with
  | nil => intro i hi; simp at hi
  | cons y ys ih =>
    intro i hi
    cases i with
    | zero =>
      rw [List.get?_cons_zero] at hi
      simp [pyIndex, Option.some.inj hi]
    | succ j =>
      rw [List.get?_cons_succ] at hi
      by_cases hy : y = x
      · simp [pyIndex, hy]
      · simp only [pyIndex, if_neg hy]
        exact Nat.succ_le_succ (ih j hi)

end RoofMapping

namespace RoofMapping

/-- C8: for every non-empty list `val_losses`, `best_epoch` is the
smallest index at which `val_losses` attains its minimum value: the
entry at `best_epoch` is the minimum `m` computed by `min`, `m` is a
lower bound of the list, and any index holding `m` is at least
`best_epoch`. -/
theorem best_epoch_first_argmin (l : List ℚ) (h : l ≠ []) :
    ∃ m : ℚ, pyMin l = some m ∧
      l.get? (best_epoch l) = some m ∧
      best_epoch l < l.length ∧
      (∀ x ∈ l, m ≤ x) ∧
      (∀ i : ℕ, l.get? i = some m → best_epoch l ≤ i) := by
  obtain ⟨x, xs, rfl⟩ := List.exists_cons_of_ne_nil h
  have hmem : xs.foldl min x ∈ x :: xs := foldl_min_mem xs x
  have hbe : best_epoch (x :: xs) = pyIndex (xs.foldl min x) (x :: xs) := rfl
  refine ⟨xs.foldl min x, rfl, ?_, ?_, ?_, ?_⟩
  · rw [hbe]
    exact pyIndex_get? _ _ hmem
  · have hg := pyIndex_get? _ _ hmem
    rw [hbe]
    by_contra hlen
    rw [List.get?_eq_none.mpr (Nat.le_of_not_lt hlen)] at hg
    exact Option.noConfusion hg
  · exact foldl_min_le xs x
  · intro i hi
    rw [hbe]
    exact pyIndex_le _ _ i hi

/-- Witness for C8: on the concrete loss list `[3, 1, 2, 1]` the marker
index points at the first minimum. -/
theorem best_epoch_first_argmin_witness :
    [(3 : ℚ), 1, 2, 1].get? (best_epoch [(3 : ℚ), 1, 2, 1]) = some 1 := by
  obtain ⟨m, hmin, hget, -, -, -⟩ :=
    best_epoch_first_argmin [(3 : ℚ), 1, 2, 1] (by decide)
  have hm1 : pyMin [(3 : ℚ), 1, 2, 1] = some 1 := by decide
  have hm : m = 1 := Option.some.inj (hmin.symm.trans hm1)
  rw [hm] at hget
  exact hget

end RoofMapping

namespace RoofMapping

/-! ## The pickled metrics dictionary (cells 4 and 5)

The pickle holds a dictionary; values are loss lists, scalars, an
integer confusion matrix and a label map.  Dictionary access raises
`KeyError` on a missing key; `min` raises `ValueError` on an empty
sequence and `TypeError` on a non-sequence; the numeric format applied
to `test_accuracy` requires a number. -/

inductive PyVal where
  | numList : List ℚ → PyVal
  | num : ℚ → PyVal
  | intMatrix : List (List ℤ) → PyVal
  | labelMap : List (ℕ × String) → PyVal
deriving DecidableEq, Repr

inductive PyErr where
  | keyError : String → PyErr
  | valueError : String → PyErr
  | typeError : String → PyErr
deriving DecidableEq, Repr

/-- The loaded metrics dictionary. -/
def PyDict : Type := List (String × PyVal)

/-- `metrics[k]`: the value at `k`, or a `KeyError`. -/
def dictGet (m : PyDict) (k : String) : Except PyErr PyVal :=
  match List.lookup k m with
  | some v => .ok v
  | none => .error (.keyError k)

/-- `min(v)` for a dictionary value. -/
def pyValMin (v : PyVal) : Except PyErr ℚ :=
  match v with
  | .numList l =>
    match pyMin l with
    | some m => .ok m
    | none => .error (.valueError "min of empty sequence")
  | _ => .error (.typeError "not iterable")

/-- `v.index(x)` for a dictionary value. -/
def pyValIndex (v : PyVal) (x : ℚ) : Except PyErr ℕ :=
  match v with
  | .numList l =>
    if x ∈ l then .ok (pyIndex x l) else .error (.valueError "not in list")
  | _ => .error (.typeError "no index method")

/-- `(v*100)` followed by the two-decimal numeric format: defined for
numbers only. -/
def pyFormat2f (v : PyVal) : Except PyErr Unit :=
  match v with
  | .num _ => .ok ()
  | _ => .error (.typeError "unsupported format operand")

/-- The six keys the spec documents for the metrics file. -/
def metricsKeys : List String :=
  ["train_losses", "val_losses", "test_loss", "test_accuracy",
    "test_confusion_matrix", "label_to_class"]

/-- Cells 4 and 5 on the loaded metrics dictionary: the keys accessed,
in evaluation order, and the outcome (the computed `best_epoch` on
success).  Plotting and printing are effect-free on the model. -/
def runMetricsCells (m : PyDict) : List String × Except PyErr ℕ :=
  match dictGet m "train_losses" with
  | .error e => (["train_losses"], .error e)
  | .ok _trainLosses =>
  match dictGet m "val_losses" with
  | .error e => (["train_losses", "val_losses"], .error e)
  | .ok _valLossesPlotted =>
  match dictGet m "val_losses" with
  | .error e => (["train_losses", "val_losses", "val_losses"], .error e)
  | .ok valReceiver =>
  match dictGet m "val_losses" with
  | .error e =>
    (["train_losses", "val_losses", "val_losses", "val_losses"], .error e)
  | .ok valArg =>
  match pyValMin valArg with
  | .error e =>
    (["train_losses", "val_losses", "val_losses", "val_losses"], .error e)
  | .ok minVal =>
  match pyValIndex valReceiver minVal with
  | .error e =>
    (["train_losses", "val_losses", "val_losses", "val_losses"], .error e)
  | .ok bestEpoch =>
  match dictGet m "test_loss" with
  | .error e =>
    (["train_losses", "val_losses", "val_losses", "val_losses", "test_loss"],
      .error e)
  | .ok _testLoss =>
  match dictGet m "label_to_class" with
  | .error e =>
    (["train_losses", "val_losses", "val_losses", "val_losses", "test_loss",
      "label_to_class"], .error e)
  | .ok _labelToClass =>
  match dictGet m "test_accuracy" with
  | .error e =>
    (["train_losses", "val_losses", "val_losses", "val_losses", "test_loss",
      "label_to_class", "test_accuracy"], .error e)
  | .ok testAccuracy =>
  match pyFormat2f testAccuracy with
  | .error e =>
    (["train_losses", "val_losses", "val_losses", "val_losses", "test_loss",
      "label_to_class", "test_accuracy"], .error e)
  | .ok _ =>
  match dictGet m "test_confusion_matrix" with
  | .error e =>
    (["train_losses", "val_losses", "val_losses", "val_losses", "test_loss",
      "label_to_class", "test_accuracy", "test_confusion_matrix"], .error e)
  | .ok _confusionMatrix =>
    (["train_losses", "val_losses", "val_losses", "val_losses", "test_loss",
      "label_to_class", "test_accuracy", "test_confusion_matrix"],
      .ok bestEpoch)

end RoofMapping

namespace RoofMapping

/-- C4: for every loaded metrics dictionary carrying the six documented
keys — with `val_losses` a non-empty loss list and `test_accuracy` a
number, as the training pipeline produces them — the plotting and
printing cells access only those six keys and complete without raising
a key error. -/
theorem metrics_cells_safe (m : PyDict)
    (htr : ∃ v, List.lookup "train_losses" m = some v)
    (hvl : ∃ vs, List.lookup "val_losses" m = some (.numList vs) ∧ vs ≠ [])
    (htl : ∃ v, List.lookup "test_loss" m = some v)
    (hlc : ∃ v, List.lookup "label_to_class" m = some v)
    (hta : ∃ q, List.lookup "test_accuracy" m = some (.num q))
    (hcm : ∃ v, List.lookup "test_confusion_matrix" m = some v) :
    (∀ k ∈ (runMetricsCells m).1, k ∈ metricsKeys) ∧
    ∃ b, (runMetricsCells m).2 = .ok b := by
  obtain ⟨tv, htr⟩ := htr
  obtain ⟨vs, hvl, hne⟩ := hvl
  obtain ⟨tl, htl⟩ := htl
  obtain ⟨lc, hlc⟩ := hlc
  obtain ⟨ta, hta⟩ := hta
  obtain ⟨cm, hcm⟩ := hcm
  obtain ⟨x, xs, rfl⟩ := List.exists_cons_of_ne_nil hne
  have hrun : runMetricsCells m =
      (["train_losses", "val_losses", "val_losses", "val_losses", "test_loss",
        "label_to_class", "test_accuracy", "test_confusion_matrix"],
        .ok (pyIndex (xs.foldl min x) (x :: xs))) := by
    unfold runMetricsCells dictGet
    rw [htr, hvl, htl, hlc, hta, hcm]
    simp only [pyValMin, pyMin, pyValIndex, pyFormat2f]
    rw [if_pos (foldl_min_mem xs x)]
  rw [hrun]
  constructor
  · intro k hk
    have hk2 : k ∈ ["train_losses", "val_losses", "val_losses", "val_losses",
        "test_loss", "label_to_class", "test_accuracy",
        "test_confusion_matrix"] := hk
    simp only [List.mem_cons, List.not_mem_nil, or_false] at hk2
    rcases hk2 with rfl | rfl | rfl | rfl | rfl | rfl | rfl | rfl <;> decide
  · exact ⟨_, rfl⟩

/-- A concrete metrics dictionary of the documented shape. -/
def exampleMetrics : PyDict :=
  [("train_losses", .numList [2, 1]),
    ("val_losses", .numList [3, 1]),
    ("test_loss", .num 2),
    ("test_accuracy", .num (2 / 3)),
    ("test_confusion_matrix", .intMatrix [[8, 0], [1, 11]]),
    ("label_to_class", .labelMap [(0, "metal_sheet"), (1, "plastic")])]

/-- Witness for C4: the cells run on `exampleMetrics` touch only the six
documented keys and finish without an error. -/
theorem metrics_cells_safe_witness :
    (∀ k ∈ (runMetricsCells exampleMetrics).1, k ∈ metricsKeys) ∧
    ∃ b, (runMetricsCells exampleMetrics).2 = .ok b :=
  metrics_cells_safe exampleMetrics ⟨_, rfl⟩ ⟨[3, 1], rfl, by decide⟩
    ⟨_, rfl⟩ ⟨_, rfl⟩ ⟨_, rfl⟩ ⟨_, rfl⟩

end RoofMapping

namespace RoofMapping

/-- Witness for C3: on an empty file system with a concrete temporary
name, even when the save raises, the cleanup removes the file. -/
theorem inference_cell_unlinks_temp_witness :
    "tmpabc123.gpkg" ∉ (runInferenceCell [] "tmpabc123.gpkg" true false).1 :=
  inference_cell_unlinks_temp [] "tmpabc123.gpkg" true false

end RoofMapping
